import Mathlib

/-!
Verification development for the PYTHON-STRAT trading repository.

Shallow embedding of the signal-generation / backtesting core:
price values, capital and P&L are modelled by exact rationals (`ℚ`);
Python `dict`s keyed by instrument symbol become insertion-ordered
association lists; fallible code (`KeyError`, raising paths) returns
`Option`; IEEE special values produced by float division are modelled
by dedicated inductive types where a claim depends on them.
-/

namespace Strat

/-- One OHLCV bar.  `tsDate` is the calendar-day number of the bar's
timestamp (the value `data.index.date` is compared against) and `tsTod`
its time of day in seconds (the value `data.index.time` is compared
against); prices and volume are rationals. -/
structure Bar where
  tsDate : ℤ
  tsTod : ℕ
  open_ : ℚ
  high : ℚ
  low : ℚ
  close : ℚ
  volume : ℚ
  deriving DecidableEq, Repr, Inhabited

/-- Lookup in an insertion-ordered association list (Python `dict[k]` /
`k in dict`): first binding for the key wins. -/
def alistFind {α : Type} (l : List (String × α)) (k : String) : Option α :=
  match l with
  | [] => none
  | (k2, v) :: rest => if k2 = k then some v else alistFind rest k

/-- Python `dict[k] = v`: replace the existing binding if present,
otherwise append at the end (dicts preserve insertion order). -/
def alistInsert {α : Type} (l : List (String × α)) (k : String) (v : α) :
    List (String × α) :=
  match l with
  | [] => [(k, v)]
  | (k2, v2) :: rest =>
      if k2 = k then (k2, v) :: rest else (k2, v2) :: alistInsert rest k v

/-- Python `del dict[k]`: remove the binding for the key. -/
def alistErase {α : Type} (l : List (String × α)) (k : String) :
    List (String × α) :=
  match l with
  | [] => []
  | (k2, v2) :: rest =>
      if k2 = k then rest else (k2, v2) :: alistErase rest k

/-- Maximum of a list of rationals (`Series.max`); 0 on the empty list,
which the embedded code never hits. -/
def listMax (l : List ℚ) : ℚ := l.foldl max (l.headD 0)

/-- Minimum of a list of rationals (`Series.min`); 0 on the empty list. -/
def listMin (l : List ℚ) : ℚ := l.foldl min (l.headD 0)

/-- Arithmetic mean (`Series.mean` on a non-empty series). -/
def listMean (l : List ℚ) : ℚ := l.sum / l.length

/-- Python `sub in s` substring test, expressed through `splitOn`:
a non-empty needle occurs in the haystack iff splitting on it yields
more than one piece. -/
def strContains (hay needle : String) : Bool :=
  (hay.splitOn needle).length != 1

/-- Python `int(x)` on a rational: truncation toward zero. -/
def truncQ (q : ℚ) : ℤ := if q < 0 then -⌊-q⌋ else ⌊q⌋

/-! ## Power of Three (src/ict_strategy/ict_po3.py) -/

/-- The PO3 table `self.po3_numbers` of `PowerOfThree.__init__`,
in iteration order. -/
def po3_numbers : List ℤ :=
  [3, 9, 27, 81, 243, 729, 2187, 6561, 19683, 59049, 177147]

/-- Result record of `PowerOfThree.calculate_dealing_range`
(src/ict_strategy/ict_po3.py lines 121-129). -/
structure DealingRange where
  range_low : ℚ
  range_high : ℚ
  equilibrium : ℚ
  premium_threshold : ℚ
  discount_threshold : ℚ
  po3_size : ℤ
  current_price : ℚ
  deriving DecidableEq, Repr

/-- Embeds the forex base-price truncation of `calculate_dealing_range`
lines 90-91: `f"{price:.5f}"` is rounded to five decimals, the decimal
point removed and the first five digits kept.  For prices in `[1, 10)`
(one integer digit, the format of the forex quotes the program handles)
this equals the 5-decimal rounding followed by dropping the last digit,
i.e. `round(p·10^5) / 10` in integer division. -/
def forexBasePrice (p : ℚ) : ℤ := (round (p * 100000) : ℤ) / 10

/-- Embeds `PowerOfThree.calculate_dealing_range`
(src/ict_strategy/ict_po3.py lines 82-129).  Python `//` is floor
division, hence `Int.fdiv`; the float literals `0.67` / `0.33` are the
exact decimals the source writes. -/
def calculate_dealing_range (current_price : ℚ) (po3_number : ℤ)
    (asset_type : String) : DealingRange :=
  let base_price : ℤ :=
    if asset_type = "forex" then forexBasePrice current_price
    else truncQ current_price
  let range_low_int : ℤ := (Int.fdiv base_price po3_number) * po3_number
  let range_high_int : ℤ := range_low_int + po3_number
  let range_low : ℚ :=
    if asset_type = "forex" then (range_low_int : ℚ) / 10000
    else (range_low_int : ℚ)
  let range_high : ℚ :=
    if asset_type = "forex" then (range_high_int : ℚ) / 10000
    else (range_high_int : ℚ)
  let equilibrium : ℚ := (range_low + range_high) / 2
  let premium_threshold : ℚ := range_low + (po3_number : ℚ) * (67 / 100)
  let discount_threshold : ℚ := range_low + (po3_number : ℚ) * (33 / 100)
  let premium_threshold : ℚ :=
    if asset_type = "forex" then premium_threshold / 10000
    else premium_threshold
  let discount_threshold : ℚ :=
    if asset_type = "forex" then discount_threshold / 10000
    else discount_threshold
  { range_low := range_low
    range_high := range_high
    equilibrium := equilibrium
    premium_threshold := premium_threshold
    discount_threshold := discount_threshold
    po3_size := po3_number
    current_price := current_price }

/-- The 5-bar rolling swing sizes of `get_optimal_po3_size` lines 58-60:
for each index `i ≥ 4`, `max(high[i-4..i]) - min(low[i-4..i])`
(`rolling(5).max/min` with the NaN head rows dropped). -/
def rollingSwings (bars : List Bar) : List ℚ :=
  (List.range bars.length).filterMap fun i =>
    if 4 ≤ i then
      let w := (bars.drop (i - 4)).take 5
      some (listMax (w.map Bar.high) - listMin (w.map Bar.low))
    else none

/-- Embeds `PowerOfThree.get_optimal_po3_size`
(src/ict_strategy/ict_po3.py lines 48-80).  `indexName` stands for
`data.index.name`.  When the swing list is empty its float mean is NaN,
every comparison in the scan is false and the default 27 is returned;
otherwise the scan keeps the first PO3 value of minimal distance to the
average swing (strict improvement only). -/
def get_optimal_po3_size (bars : List Bar) (indexName : String)
    (lookback_periods : ℕ := 60) : ℤ :=
  let lookback := min lookback_periods bars.length
  let recent := bars.drop (bars.length - lookback)
  let swings := rollingSwings recent
  let swings :=
    if strContains indexName "USD" || strContains indexName "EUR" ||
       strContains indexName "GBP" || strContains indexName "JPY" then
      swings.map (· * 10000)
    else swings
  if swings.isEmpty then 27
  else
    let avg := listMean swings
    let best := po3_numbers.foldl
      (fun (acc : ℤ × Option ℚ) (v : ℤ) =>
        let d : ℚ := |avg - (v : ℚ)|
        match acc.2 with
        | none => (v, some d)
        | some m => if d < m then (v, some d) else acc)
      ((27 : ℤ), (none : Option ℚ))
    best.1

/-! ## Goldbach levels (src/ict_strategy/ict_goldbach.py) -/

/-- One entry of the nested `levels` dict built by
`GoldbachLevels.calculate_goldbach_levels`: price, percentage, static
weight and category name. -/
structure GoldbachLevel where
  price : ℚ
  percentage : ℕ
  weight : ℚ
  type_ : String
  deriving DecidableEq, Repr

/-- The `self.goldbach_levels` table of `GoldbachLevels.__init__`
(category, percentage list) paired with `self.level_weights`, flattened
in the dict-iteration order of the source. -/
def goldbach_level_table : List (String × List ℕ × ℚ) :=
  [("high_low", [0, 100], 1),
   ("order_block", [11, 89], 9/10),
   ("fair_value_gap", [17, 83], 8/10),
   ("liquidity_void", [29, 71], 7/10),
   ("breaker", [41, 59], 6/10),
   ("equilibrium", [50], 5/10)]

/-- Embeds `GoldbachLevels.calculate_goldbach_levels`
(src/ict_strategy/ict_goldbach.py lines 40-60); the nested dict is
flattened to a list in its iteration order. -/
def calculate_goldbach_levels (range_high range_low : ℚ) :
    List GoldbachLevel :=
  let range_size := range_high - range_low
  goldbach_level_table.flatMap fun (name, pcts, w) =>
    pcts.map fun (pct : ℕ) =>
      { price := range_low + range_size * (pct : ℚ) / 100
        percentage := pct
        weight := w
        type_ := name }

/-- `get_nearest_goldbach_level`'s result: the chosen level together
with its distance to the current price (`level_type` of the source
equals the level's `type_`). -/
structure NearestLevel where
  price : ℚ
  percentage : ℕ
  weight : ℚ
  level_type : String
  distance : ℚ
  deriving DecidableEq, Repr

/-- Embeds `GoldbachLevels.get_nearest_goldbach_level`
(src/ict_strategy/ict_goldbach.py lines 62-84) with `max_distance`
left `None` as every caller does: scan in iteration order, keep the
first level of strictly minimal distance. -/
def get_nearest_goldbach_level (current_price : ℚ)
    (levels : List GoldbachLevel) : Option NearestLevel :=
  levels.foldl
    (fun (acc : Option NearestLevel) lv =>
      let distance := |current_price - lv.price|
      match acc with
      | none => some ⟨lv.price, lv.percentage, lv.weight, lv.type_, distance⟩
      | some best =>
          if distance < best.distance then
            some ⟨lv.price, lv.percentage, lv.weight, lv.type_, distance⟩
          else acc)
    none

/-- The flat record returned by
`GoldbachLevels.calculate_institutional_levels`
(src/ict_strategy/ict_goldbach.py lines 179-218): each key extracts one
fixed-percentage price of the Goldbach table. -/
structure InstitutionalLevels where
  order_block_low : ℚ
  order_block_high : ℚ
  fvg_low : ℚ
  fvg_high : ℚ
  liq_void_low : ℚ
  liq_void_high : ℚ
  breaker_low : ℚ
  breaker_high : ℚ
  equilibrium : ℚ
  deriving DecidableEq, Repr

/-- Embeds `GoldbachLevels.calculate_institutional_levels`: the source
recomputes the Goldbach levels for the PO3 range and picks the level at
each named percentage (all six categories are always present in the
table, so every `if ... in goldbach_levels` guard passes). -/
def calculate_institutional_levels (po3_range : DealingRange) :
    InstitutionalLevels :=
  let range_high := po3_range.range_high
  let range_low := po3_range.range_low
  let size := range_high - range_low
  let at_ : ℕ → ℚ := fun pct => range_low + size * (pct : ℚ) / 100
  { order_block_low := at_ 11
    order_block_high := at_ 89
    fvg_low := at_ 17
    fvg_high := at_ 83
    liq_void_low := at_ 29
    liq_void_high := at_ 71
    breaker_low := at_ 41
    breaker_high := at_ 59
    equilibrium := at_ 50 }

/-! ## AMD cycles (src/ict_strategy/ict_amd_cycles.py) -/

/-- Session window boundaries of `AMDCycles.__init__`, as seconds of the
day: asian 20:00-05:00 (accumulation, spans midnight), london
05:00-11:00 (manipulation), new_york 11:00-20:00 (distribution). -/
def asianStart : ℕ := 72000

/-- 05:00 CET in seconds: end of the asian window, start of london. -/
def asianEnd : ℕ := 18000

/-- 11:00 CET in seconds: end of london, start of new_york. -/
def londonEnd : ℕ := 39600

/-- Per-phase slot of the `amd_cycle` dict: first and last timestamp of
the session's bars (`None` when the session has no bars) and the bar
subsequence itself. -/
structure PhaseData where
  start : Option (ℤ × ℕ)
  end_ : Option (ℤ × ℕ)
  data : List Bar
  deriving DecidableEq, Repr, Inhabited

/-- The `amd_cycle` dict of `AMDCycles.identify_daily_amd_cycle`. -/
structure AMDCycle where
  date : ℤ
  accumulation : PhaseData
  manipulation : PhaseData
  distribution : PhaseData
  deriving DecidableEq, Repr, Inhabited

/-- Builds one phase slot from the session's bar filter (lines 103-106
of the source: `start`/`end` are set only when the filter is non-empty,
and `data` is the filter result either way, the empty frame being the
initialised default). -/
def mkPhaseData (bars : List Bar) : PhaseData :=
  { start := bars.head?.map fun b => (b.tsDate, b.tsTod)
    end_ := bars.getLast?.map fun b => (b.tsDate, b.tsTod)
    data := bars }

/-- The day filter of `identify_daily_amd_cycle` line 70:
`data[data.index.date == target_date]`. -/
def dayData (data : List Bar) (target_date : ℤ) : List Bar :=
  data.filter fun b => b.tsDate = target_date

/-- Embeds `AMDCycles.identify_daily_amd_cycle`
(src/ict_strategy/ict_amd_cycles.py lines 52-114) for a timezone-naive
index.  `target none` is Python's `target_date=None`: the date of the
last bar (an empty frame there raises, and an empty day's data returns
`{}`; both are `none` here).  The asian filter keeps bars with
time-of-day `≥ 20:00` or `≤ 05:00`; london and new_york keep the bars
inside their windows, both endpoints included. -/
def identify_daily_amd_cycle (data : List Bar) (target : Option ℤ) :
    Option AMDCycle :=
  match (match target with
         | some d => some d
         | none => data.getLast?.map Bar.tsDate) with
  | none => none
  | some target_date =>
    let day := dayData data target_date
    if day.isEmpty then none
    else
      some
        { date := target_date
          accumulation := mkPhaseData
            (day.filter fun b => asianStart ≤ b.tsTod ∨ b.tsTod ≤ asianEnd)
          manipulation := mkPhaseData
            (day.filter fun b => asianEnd ≤ b.tsTod ∧ b.tsTod ≤ londonEnd)
          distribution := mkPhaseData
            (day.filter fun b => londonEnd ≤ b.tsTod ∧ b.tsTod ≤ asianStart) }

/-- Result of `AMDCycles.analyze_manipulation_phase`
(src/ict_strategy/ict_amd_cycles.py lines 116-162). -/
structure ManipulationAnalysis where
  session_high : ℚ
  session_low : ℚ
  session_range : ℚ
  opening_price : ℚ
  closing_price : ℚ
  direction : String
  manipulation_type : String
  key_levels : List ℚ
  deriving DecidableEq, Repr

/-- Embeds `AMDCycles.analyze_manipulation_phase`: empty input returns
`{}` (here `none`); otherwise session statistics, direction from close
vs open, type `range_expansion` when the range exceeds 0.5% of the
opening price, and the five third-levels.  (Python computes
`range/opening*100` in floats; a zero opening price would give inf/nan
there and 0 here — no caller reaches that case with market data.) -/
def analyze_manipulation_phase (bars : List Bar) :
    Option ManipulationAnalysis :=
  match bars with
  | [] => none
  | b0 :: _ =>
    let session_high := listMax (bars.map Bar.high)
    let session_low := listMin (bars.map Bar.low)
    let session_range := session_high - session_low
    let opening_price := b0.open_
    let closing_price := (bars.getLastD b0).close
    let direction := if closing_price > opening_price then "bullish" else "bearish"
    let range_percentage := session_range / opening_price * 100
    let manipulation_type :=
      if range_percentage > 1/2 then "range_expansion" else "consolidation"
    some
      { session_high := session_high
        session_low := session_low
        session_range := session_range
        opening_price := opening_price
        closing_price := closing_price
        direction := direction
        manipulation_type := manipulation_type
        key_levels :=
          [session_low,
           session_low + session_range * (33/100),
           session_low + session_range * (50/100),
           session_low + session_range * (67/100),
           session_high] }

/-! ## HIPPO patterns (src/ict_strategy/ict_hippo.py) -/

/-- Result of `HIPPOPatterns._calculate_gap`: pip-scaled gap size and
gap type (`none` when candles overlap; the source multiplies the zero
size by 10000 as well, leaving it zero). -/
structure GapInfo where
  size : ℚ
  type_ : Option String
  deriving DecidableEq, Repr

/-- Embeds `HIPPOPatterns._calculate_gap`
(src/ict_strategy/ict_hippo.py lines 164-183): gap up when the second
candle's low clears the first's high, gap down symmetrically; the size
is scaled by 10000 ("assuming forex pair"). -/
def calculate_gap (candle1 candle2 : Bar) : GapInfo :=
  if candle2.low > candle1.high then
    { size := (candle2.low - candle1.high) * 10000, type_ := some "up" }
  else if candle2.high < candle1.low then
    { size := (candle1.low - candle2.high) * 10000, type_ := some "down" }
  else
    { size := 0, type_ := none }

/-- Embeds `HIPPOPatterns._calculate_hidden_level`
(src/ict_strategy/ict_hippo.py lines 185-209). -/
def calculate_hidden_level (candle1 candle2 candle3 : Bar)
    (direction : String) : ℚ :=
  if direction = "bullish" then
    (min candle1.open_ candle1.close + min candle3.open_ candle3.close) / 2
  else if direction = "bearish" then
    (max candle1.open_ candle1.close + max candle3.open_ candle3.close) / 2
  else
    if candle2.high > max candle1.high candle3.high then candle2.high
    else candle2.low

/-- The pattern dict of `HIPPOPatterns._analyze_hippo_pattern`.
`gap_quotient` is the source's `gap_ratio` field. -/
structure HippoPattern where
  is_hippo : Bool
  pattern_type : Option String
  gap1_size : ℚ
  gap2_size : ℚ
  gap_quotient : ℚ
  hidden_level : Option ℚ
  direction : Option String
  deriving DecidableEq, Repr

/-- Embeds `HIPPOPatterns._analyze_hippo_pattern`
(src/ict_strategy/ict_hippo.py lines 112-162) with the fixed
requirements `min_gap_size = 5` and `max_gap_ratio = 2.0`.  Both gaps
must be strictly positive; the pattern qualifies when both are at least
5 pips and the larger-to-smaller quotient is at most 2. -/
def analyze_hippo_pattern (candle1 candle2 candle3 : Bar) : HippoPattern :=
  let gap1 := calculate_gap candle1 candle2
  let gap2 := calculate_gap candle2 candle3
  if gap1.size > 0 ∧ gap2.size > 0 then
    let q := max gap1.size gap2.size / min gap1.size gap2.size
    if 5 ≤ gap1.size ∧ 5 ≤ gap2.size ∧ q ≤ 2 then
      if gap1.type_ = some "up" ∧ gap2.type_ = some "up" then
        { is_hippo := true, pattern_type := some "bullish_continuation"
          gap1_size := gap1.size, gap2_size := gap2.size, gap_quotient := q
          hidden_level := some (calculate_hidden_level candle1 candle2 candle3 "bullish")
          direction := some "bullish" }
      else if gap1.type_ = some "down" ∧ gap2.type_ = some "down" then
        { is_hippo := true, pattern_type := some "bearish_continuation"
          gap1_size := gap1.size, gap2_size := gap2.size, gap_quotient := q
          hidden_level := some (calculate_hidden_level candle1 candle2 candle3 "bearish")
          direction := some "bearish" }
      else
        { is_hippo := true, pattern_type := some "reversal"
          gap1_size := gap1.size, gap2_size := gap2.size, gap_quotient := q
          hidden_level := some (calculate_hidden_level candle1 candle2 candle3 "reversal")
          direction := some "reversal" }
    else
      { is_hippo := false, pattern_type := none, gap1_size := gap1.size
        gap2_size := gap2.size, gap_quotient := q
        hidden_level := none, direction := none }
  else
    { is_hippo := false, pattern_type := none, gap1_size := 0
      gap2_size := 0, gap_quotient := 0, hidden_level := none,
      direction := none }

/-- Embeds `HIPPOPatterns.identify_hippo_patterns`
(src/ict_strategy/ict_hippo.py lines 86-110): slide over every interior
candle and keep the qualifying three-candle patterns. -/
def identify_hippo_patterns (bars : List Bar) : List HippoPattern :=
  if bars.length < 3 then []
  else
    (List.range bars.length).filterMap fun i =>
      if 1 ≤ i ∧ i + 1 < bars.length then
        let p := analyze_hippo_pattern (bars.getD (i - 1) default)
          (bars.getD i default) (bars.getD (i + 1) default)
        if p.is_hippo then some p else none
      else none

/-- A calendar date (year, month, day), standing for the
`datetime` values the source reads off the wall clock. -/
structure Date where
  year : ℤ
  month : ℕ
  day : ℕ
  deriving DecidableEq, Repr

/-- Gregorian leap-year test. -/
def isLeapYear (y : ℤ) : Bool :=
  (y % 4 = 0 ∧ y % 100 ≠ 0) ∨ y % 400 = 0

/-- Days from January 1st to the first of the given month (month in
1..12), in a non-leap year. -/
def daysBeforeMonth (m : ℕ) : ℕ :=
  [0, 0, 31, 59, 90, 120, 151, 181, 212, 243, 273, 304, 334].getD m 0

/-- Proleptic-Gregorian day ordinal of a date, mirroring the arithmetic
of Python `datetime` subtraction (`(a - b).days`). -/
def dateOrdinal (d : Date) : ℤ :=
  let y := d.year - 1
  365 * y + Int.fdiv y 4 - Int.fdiv y 100 + Int.fdiv y 400 +
    (daysBeforeMonth d.month : ℤ) +
    (if isLeapYear d.year ∧ 2 < d.month then 1 else 0) + (d.day : ℤ)

/-- One row of `self.lookback_calendar` in `HIPPOPatterns.__init__`:
partition day-of-month and partition number, per month 1..12. -/
def lookback_calendar (month : ℕ) : Option (ℕ × ℕ) :=
  [(1, (8, 18)), (2, (7, 27)), (3, (6, 36)), (4, (5, 45)), (5, (4, 54)),
   (6, (3, 63)), (7, (2, 72)), (8, (1, 81)), (9, (9, 90)), (10, (8, 108)),
   (11, (7, 117)), (12, (6, 126))].lookup month

/-- The partition dict returned by
`HIPPOPatterns.get_current_lookback_partition`. -/
structure PartitionInfo where
  month : ℕ
  partition_number : ℕ
  partition_start : Date
  current_date : Date
  days_into_partition : ℤ
  deriving DecidableEq, Repr

/-- Embeds `HIPPOPatterns.get_current_lookback_partition`
(src/ict_strategy/ict_hippo.py lines 48-84), with the ambient
`datetime.now()` threaded as the explicit `current_date`: pick the
month's partition row, fall back to the previous month's partition when
the partition day has not been reached yet (December of the previous
year for January). -/
def get_current_lookback_partition (current_date : Date) :
    Option PartitionInfo :=
  match lookback_calendar current_date.month with
  | none => none
  | some info =>
    let month := current_date.month
    let start : Date := ⟨current_date.year, month, info.1⟩
    let (info, start) :=
      if current_date.day < info.1 then
        let prev_month := if month = 1 then 12 else month - 1
        let year := if month = 1 then current_date.year - 1 else current_date.year
        match lookback_calendar prev_month with
        | some pinfo => (pinfo, (⟨year, prev_month, pinfo.1⟩ : Date))
        | none => (info, start)
      else (info, start)
    some
      { month := month
        partition_number := info.2
        partition_start := start
        current_date := current_date
        days_into_partition := dateOrdinal current_date - dateOrdinal start }

/-- One clue record of `HIPPOPatterns.analyze_lookback_clues`. -/
structure LookbackClue where
  type_ : String
  size : ℚ
  target_size : ℕ
  match_quality : ℚ
  deriving DecidableEq, Repr

/-- The per-bar clue candidates of `analyze_lookback_clues`
(src/ict_strategy/ict_hippo.py lines 220-258): a gap clue against the
previous bar (for every bar but the first) and upper/lower wick clues,
each within 10% of the partition number. -/
def barClues (pn : ℕ) (prev : Option Bar) (b : Bar) : List LookbackClue :=
  let gapClue : List LookbackClue :=
    match prev with
    | none => []
    | some p =>
      let gap := (calculate_gap p b).size
      if |gap - (pn : ℚ)| < (pn : ℚ) * (1/10) then
        [⟨"gap", gap, pn, 1 - |gap - (pn : ℚ)| / (pn : ℚ)⟩]
      else []
  let upper := (b.high - max b.open_ b.close) * 10000
  let lower := (min b.open_ b.close - b.low) * 10000
  let upperClue : List LookbackClue :=
    if |upper - (pn : ℚ)| < (pn : ℚ) * (1/10) then
      [⟨"upper_wick", upper, pn, 1 - |upper - (pn : ℚ)| / (pn : ℚ)⟩]
    else []
  let lowerClue : List LookbackClue :=
    if |lower - (pn : ℚ)| < (pn : ℚ) * (1/10) then
      [⟨"lower_wick", lower, pn, 1 - |lower - (pn : ℚ)| / (pn : ℚ)⟩]
    else []
  gapClue ++ upperClue ++ lowerClue

/-- Embeds `HIPPOPatterns.analyze_lookback_clues`: collect the clue
candidates bar by bar, then sort by match quality, best first (a stable
sort, matching Python's `list.sort`). -/
def analyze_lookback_clues (bars : List Bar)
    (partition_info : Option PartitionInfo) : List LookbackClue :=
  let pn := match partition_info with
            | some p => p.partition_number
            | none => 27
  let clues := (List.range bars.length).flatMap fun i =>
    barClues pn (if i = 0 then none else some (bars.getD (i - 1) default))
      (bars.getD i default)
  clues.mergeSort fun a b => decide (b.match_quality ≤ a.match_quality)

/-! ## ICT strategy (src/ict_strategy/ict_strategy.py) -/

/-- Result of `ICTStrategy._analyze_price_position`. -/
structure PricePosition where
  zone : String
  position_percentage : ℚ
  strength : ℚ
  deriving DecidableEq, Repr

/-- Embeds `ICTStrategy._analyze_price_position`
(src/ict_strategy/ict_strategy.py lines 280-304): position of the price
inside the dealing range as a fraction, zoned at the 33% / 67%
thresholds with the linear strength formulas of the source. -/
def analyze_price_position (current_price : ℚ) (po3_range : DealingRange) :
    PricePosition :=
  let range_low := po3_range.range_low
  let range_high := po3_range.range_high
  let range_size := range_high - range_low
  let position_pct := (current_price - range_low) / range_size
  if position_pct ≤ 33/100 then
    ⟨"discount", position_pct, (33/100 - position_pct) / (33/100)⟩
  else if position_pct ≥ 67/100 then
    ⟨"premium", position_pct, (position_pct - 67/100) / (33/100)⟩
  else
    ⟨"equilibrium", position_pct, 1 - |position_pct - 1/2| / (17/100)⟩

/-- Embeds `ICTStrategy._identify_current_amd_phase`
(src/ict_strategy/ict_strategy.py lines 306-318), with the ambient
`datetime.now().time()` threaded as `now_tod` (seconds of day). -/
def identify_current_amd_phase (now_tod : ℕ) : String :=
  if asianStart ≤ now_tod ∨ now_tod ≤ asianEnd then "accumulation"
  else if asianEnd ≤ now_tod ∧ now_tod ≤ londonEnd then "manipulation"
  else "distribution"

/-- Embeds `ICTStrategy._analyze_current_manipulation`
(src/ict_strategy/ict_strategy.py lines 320-330): empty cycle or empty
manipulation data gives `{}`. -/
def analyze_current_manipulation (amd_cycle : Option AMDCycle) :
    Option ManipulationAnalysis :=
  match amd_cycle with
  | none => none
  | some c => analyze_manipulation_phase c.manipulation.data

/-- The `po3_analysis` part of the market-analysis snapshot. -/
structure Po3AnalysisPart where
  optimal_size : ℤ
  dealing_range : DealingRange
  price_position : PricePosition
  deriving DecidableEq, Repr

/-- The `goldbach_analysis` part of the snapshot. -/
structure GoldbachAnalysisPart where
  levels : List GoldbachLevel
  nearest_level : Option NearestLevel
  institutional_levels : InstitutionalLevels
  deriving DecidableEq, Repr

/-- The `amd_analysis` part of the snapshot. -/
structure AmdAnalysisPart where
  current_cycle : Option AMDCycle
  current_phase : String
  manipulation_analysis : Option ManipulationAnalysis
  deriving DecidableEq, Repr

/-- The `hippo_analysis` part of the snapshot. -/
structure HippoAnalysisPart where
  partition_info : Option PartitionInfo
  patterns : List HippoPattern
  lookback_clues : List LookbackClue
  deriving DecidableEq, Repr

/-- The `market_analysis` dict returned by `ICTStrategy.analyze_market`
(src/ict_strategy/ict_strategy.py lines 82-110). -/
structure MarketAnalysis where
  timestamp : ℤ × ℕ
  current_price : ℚ
  po3_analysis : Po3AnalysisPart
  goldbach_analysis : GoldbachAnalysisPart
  amd_analysis : AmdAnalysisPart
  hippo_analysis : HippoAnalysisPart
  deriving DecidableEq, Repr

/-- Embeds `ICTStrategy.analyze_market`
(src/ict_strategy/ict_strategy.py lines 49-112).  Fewer than 100 bars
returns the empty dict (`none`); otherwise the snapshot is assembled
from the component analyses, all of which are total functions here —
the source likewise raises no exception on this path.  The ambient
wall-clock reads (`datetime.now()` inside the partition lookup and the
phase identification) are threaded as `nowDate` / `now_tod`;
`indexName` is `data.index.name`; `asset_type` comes from the strategy
config (default `'forex'`). -/
def analyze_market (asset_type indexName : String) (nowDate : Date)
    (now_tod : ℕ) (data : List Bar) : Option MarketAnalysis :=
  if data.length < 100 then none
  else
    let lastBar := data.getLastD default
    let current_price := lastBar.close
    let optimal_po3 := get_optimal_po3_size data indexName
    let po3_range := calculate_dealing_range current_price optimal_po3 asset_type
    let goldbach_levels :=
      calculate_goldbach_levels po3_range.range_high po3_range.range_low
    let amd_cycle := identify_daily_amd_cycle data none
    let partition_info := get_current_lookback_partition nowDate
    let hippo_patterns := identify_hippo_patterns data
    some
      { timestamp := (lastBar.tsDate, lastBar.tsTod)
        current_price := current_price
        po3_analysis :=
          ⟨optimal_po3, po3_range, analyze_price_position current_price po3_range⟩
        goldbach_analysis :=
          ⟨goldbach_levels,
           get_nearest_goldbach_level current_price goldbach_levels,
           calculate_institutional_levels po3_range⟩
        amd_analysis :=
          ⟨amd_cycle, identify_current_amd_phase now_tod,
           analyze_current_manipulation amd_cycle⟩
        hippo_analysis :=
          ⟨partition_info, hippo_patterns,
           analyze_lookback_clues data partition_info⟩ }

/-- Embeds `ICTStrategy._calculate_confluence`
(src/ict_strategy/ict_strategy.py lines 252-278).  `signal_strength`
models `signal.get('strength', 0.5)` — the only signal key the function
reads, absent keys defaulting to 0.5.  The four boosts are +0.2 for the
manipulation phase, +0.15 when the nearest Goldbach level is closer
than 0.2% of the level's own price, +0.1 for a discount or premium
zone, +0.1 when any qualifying HIPPO pattern is present; the result is
capped above at 1 (`min(score, 1.0)` — the source has no lower cap). -/
def calculate_confluence (signal_strength : Option ℚ)
    (analysis : MarketAnalysis) : ℚ :=
  let score := signal_strength.getD (1/2)
  let score :=
    if analysis.amd_analysis.current_phase = "manipulation" then score + 2/10
    else score
  let score :=
    match analysis.goldbach_analysis.nearest_level with
    | some nl => if nl.distance < nl.price * (2/1000) then score + 15/100 else score
    | none => score
  let score :=
    if analysis.po3_analysis.price_position.zone = "discount" ∨
       analysis.po3_analysis.price_position.zone = "premium" then score + 1/10
    else score
  let score :=
    if analysis.hippo_analysis.patterns.any HippoPattern.is_hippo then
      score + 1/10
    else score
  min score 1

/-- Modelled from the spec: the scoring formula
`clip(rawStrength + 0.20·[manipulation] + 0.15·[near level] +
0.10·[discount/premium zone] + 0.10·[hippo pattern], 0, 1)`,
written independently of the source as a refinement target. -/
def confluence_spec (signal_strength : Option ℚ)
    (analysis : MarketAnalysis) : ℚ :=
  let raw := signal_strength.getD (1/2)
  let b1 : ℚ :=
    if analysis.amd_analysis.current_phase = "manipulation" then 2/10 else 0
  let b2 : ℚ :=
    match analysis.goldbach_analysis.nearest_level with
    | some nl => if nl.distance < nl.price * (2/1000) then 15/100 else 0
    | none => 0
  let b3 : ℚ :=
    if analysis.po3_analysis.price_position.zone = "discount" ∨
       analysis.po3_analysis.price_position.zone = "premium" then 1/10 else 0
  let b4 : ℚ :=
    if analysis.hippo_analysis.patterns.any HippoPattern.is_hippo then 1/10
    else 0
  max 0 (min (raw + b1 + b2 + b3 + b4) 1)

/-! ## Risk manager (src/trading_core/risk_manager.py, config/config.py) -/

/-- Futures contract specification (`InstrumentConfig.FUTURES_SPECS`). -/
structure FuturesSpec where
  tick_size : ℚ
  tick_value : ℚ
  margin_requirement : ℚ
  deriving DecidableEq, Repr

/-- Forex specification (`InstrumentConfig.FOREX_SPECS`). -/
structure ForexSpec where
  pip_value : ℚ
  deriving DecidableEq, Repr

/-- The configuration values the risk manager reads
(`TradingConfig` / `InstrumentConfig` of config/config.py). -/
structure TradingCfg where
  RISK_PER_TRADE : ℚ
  MAX_DRAWDOWN_USD : ℚ
  MAX_POSITIONS : ℕ
  FUTURES_SYMBOLS : List String
  FOREX_SYMBOLS : List String
  FUTURES_SPECS : List (String × FuturesSpec)
  FOREX_SPECS : List (String × ForexSpec)
  deriving DecidableEq, Repr

/-- The concrete configuration of config/config.py. -/
def default_config : TradingCfg :=
  { RISK_PER_TRADE := 25/10000
    MAX_DRAWDOWN_USD := 1500
    MAX_POSITIONS := 6
    FUTURES_SYMBOLS := ["ES", "NQ", "YM"]
    FOREX_SYMBOLS := ["AUDUSD", "EURUSD", "GBPUSD"]
    FUTURES_SPECS :=
      [("ES", ⟨1/4, 25/2, 13200⟩), ("NQ", ⟨1/4, 5, 17600⟩),
       ("YM", ⟨1, 5, 8800⟩)]
    FOREX_SPECS :=
      [("AUDUSD", ⟨1/10000⟩), ("EURUSD", ⟨1/10000⟩), ("GBPUSD", ⟨1/10000⟩)] }

/-- An open position (the dict built in `RiskManager.add_position`);
`entry_time` models the `datetime.now()` stamp as an abstract tick. -/
structure Position where
  symbol : String
  size : ℤ
  direction : String
  entry_price : ℚ
  stop_loss : ℚ
  take_profit : Option ℚ
  entry_time : ℕ
  unrealized_pnl : ℚ
  max_favorable : ℚ
  max_adverse : ℚ
  deriving DecidableEq, Repr

/-- A closed trade (the record built in `RiskManager.close_position`). -/
structure Trade where
  symbol : String
  direction : String
  size : ℤ
  entry_price : ℚ
  exit_price : ℚ
  entry_time : ℕ
  exit_time : ℕ
  realized_pnl : ℚ
  max_favorable : ℚ
  max_adverse : ℚ
  exit_reason : String
  deriving DecidableEq, Repr

/-- The mutable state of a `RiskManager` instance.  `positions` is the
insertion-ordered symbol-keyed dict; `trade_history` the append-only
log.  `max_drawdown_reached` and `daily_pnl` are initialised to 0 by
`__init__` and never written again. -/
structure RMState where
  initial_capital : ℚ
  current_capital : ℚ
  max_drawdown_reached : ℚ
  daily_pnl : ℚ
  positions : List (String × Position)
  trade_history : List Trade
  deriving DecidableEq, Repr

/-- Embeds `RiskManager.__init__`. -/
def mkRiskManager (initial_capital : ℚ) : RMState :=
  { initial_capital := initial_capital
    current_capital := initial_capital
    max_drawdown_reached := 0
    daily_pnl := 0
    positions := []
    trade_history := [] }

/-- Embeds `RiskManager.calculate_position_size`
(src/trading_core/risk_manager.py lines 23-79).  The whole body runs
under `try/except` returning 0, so the error paths (missing instrument
spec, zero divisor) yield 0 here; `int(...)` truncates toward zero. -/
def calculate_position_size (cfg : TradingCfg) (symbol : String)
    (entry_price stop_loss account_balance : ℚ) : ℤ :=
  let risk_amount := account_balance * cfg.RISK_PER_TRADE
  let price_diff := |entry_price - stop_loss|
  if price_diff = 0 then 0
  else if symbol ∈ cfg.FUTURES_SYMBOLS then
    match alistFind cfg.FUTURES_SPECS symbol with
    | none => 0
    | some specs =>
      let ticks_at_risk := price_diff / specs.tick_size
      let risk_per_contract := ticks_at_risk * specs.tick_value
      if risk_per_contract = 0 then 0
      else
        let position_size := truncQ (risk_amount / risk_per_contract)
        let margin_required := (position_size : ℚ) * specs.margin_requirement
        let position_size :=
          if margin_required > account_balance * (3/10) then
            if specs.margin_requirement = 0 then 0
            else truncQ (account_balance * (3/10) / specs.margin_requirement)
          else position_size
        max 0 position_size
  else
    match alistFind cfg.FOREX_SPECS symbol with
    | none => 0
    | some specs =>
      let pips_at_risk := price_diff / specs.pip_value
      let risk_per_lot := pips_at_risk * 10
      if risk_per_lot = 0 then 0
      else
        let lots := risk_amount / risk_per_lot
        max 0 (truncQ (lots * 100000))

/-- Embeds `RiskManager._check_correlation_limits`
(src/trading_core/risk_manager.py lines 115-132): at most two
concurrent futures positions and at most two concurrent forex
positions; `true` means the limit would be violated. -/
def check_correlation_limits (cfg : TradingCfg) (s : RMState)
    (symbol : String) : Bool :=
  if symbol ∈ cfg.FUTURES_SYMBOLS ∧
     2 ≤ (s.positions.filter fun p => p.1 ∈ cfg.FUTURES_SYMBOLS).length then
    true
  else if symbol ∈ cfg.FOREX_SYMBOLS ∧
     2 ≤ (s.positions.filter fun p => p.1 ∈ cfg.FOREX_SYMBOLS).length then
    true
  else false

/-- Embeds `RiskManager.check_risk_limits`
(src/trading_core/risk_manager.py lines 81-113); `entry_price` is
accepted and ignored exactly as in the source.  No statement in the
body can raise, so the `except` branch is dead. -/
def check_risk_limits (cfg : TradingCfg) (s : RMState) (symbol : String)
    (position_size : ℤ) (entry_price : ℚ) : Bool :=
  if cfg.MAX_POSITIONS ≤ s.positions.length then false
  else if (alistFind s.positions symbol).isSome then false
  else if cfg.MAX_DRAWDOWN_USD ≤ s.initial_capital - s.current_capital then false
  else if check_correlation_limits cfg s symbol then false
  else if position_size ≤ 0 then false
  else true

/-- Embeds `RiskManager.add_position`
(src/trading_core/risk_manager.py lines 134-162): on a failed risk
check returns `False` with the state untouched, otherwise inserts the
new position dict under its symbol. -/
def add_position (cfg : TradingCfg) (symbol : String) (position_size : ℤ)
    (entry_price stop_loss : ℚ) (take_profit : Option ℚ)
    (direction : String) (now : ℕ) (s : RMState) : Bool × RMState :=
  if ¬ check_risk_limits cfg s symbol position_size entry_price then (false, s)
  else
    let position : Position :=
      { symbol := symbol
        size := position_size
        direction := direction
        entry_price := entry_price
        stop_loss := stop_loss
        take_profit := take_profit
        entry_time := now
        unrealized_pnl := 0
        max_favorable := 0
        max_adverse := 0 }
    (true, { s with positions := alistInsert s.positions symbol position })

/-- Embeds `RiskManager.update_position_pnl`
(src/trading_core/risk_manager.py lines 164-204): recompute the
unrealized P&L from the instrument spec (futures tick maths or forex
pip maths) and push the max favorable / adverse excursions.  A missing
spec or zero tick/pip divisor raises in Python (no `try` here), hence
`none`. -/
def update_position_pnl (cfg : TradingCfg) (symbol : String)
    (current_price : ℚ) (s : RMState) : Option RMState :=
  match alistFind s.positions symbol with
  | none => some s
  | some position =>
    let price_diff := current_price - position.entry_price
    let price_diff := if position.direction = "SHORT" then -price_diff else price_diff
    let upnl? : Option ℚ :=
      if symbol ∈ cfg.FUTURES_SYMBOLS then
        match alistFind cfg.FUTURES_SPECS symbol with
        | none => none
        | some specs =>
          if specs.tick_size = 0 then none
          else some (price_diff / specs.tick_size * specs.tick_value * position.size)
      else
        match alistFind cfg.FOREX_SPECS symbol with
        | none => none
        | some specs =>
          if specs.pip_value = 0 then none
          else some (price_diff / specs.pip_value * 10 * ((position.size : ℚ) / 100000))
    match upnl? with
    | none => none
    | some unrealized_pnl =>
      let position :=
        { position with
          unrealized_pnl := unrealized_pnl
          max_favorable :=
            if unrealized_pnl > position.max_favorable then unrealized_pnl
            else position.max_favorable
          max_adverse :=
            if unrealized_pnl < position.max_adverse then unrealized_pnl
            else position.max_adverse }
      some { s with positions := alistInsert s.positions symbol position }

/-- Embeds `RiskManager.check_stop_loss`
(src/trading_core/risk_manager.py lines 206-220): boundary-inclusive
directional comparison against the stored stop. -/
def check_stop_loss (s : RMState) (symbol : String)
    (current_price : ℚ) : Bool :=
  match alistFind s.positions symbol with
  | none => false
  | some position =>
    if position.direction = "LONG" ∧ current_price ≤ position.stop_loss then true
    else if position.direction = "SHORT" ∧ position.stop_loss ≤ current_price then true
    else false

/-- Embeds `RiskManager.check_take_profit`
(src/trading_core/risk_manager.py lines 222-240). -/
def check_take_profit (s : RMState) (symbol : String)
    (current_price : ℚ) : Bool :=
  match alistFind s.positions symbol with
  | none => false
  | some position =>
    match position.take_profit with
    | none => false
    | some tp =>
      if position.direction = "LONG" ∧ tp ≤ current_price then true
      else if position.direction = "SHORT" ∧ current_price ≤ tp then true
      else false

/-- Embeds `RiskManager.close_position`
(src/trading_core/risk_manager.py lines 242-279).  An unknown symbol
returns the empty dict (`(none, s)`) leaving the state untouched;
otherwise the position's P&L is recomputed at the exit price, the
realized P&L is added to capital, a trade record is appended (stamped
with `now` for `datetime.now()`), and the position is deleted.  The
outer `none` is the exception path of the inner `update_position_pnl`
call (this method has no `try`). -/
def close_position (cfg : TradingCfg) (symbol : String) (exit_price : ℚ)
    (reason : String) (now : ℕ) (s : RMState) :
    Option (Option Trade × RMState) :=
  match alistFind s.positions symbol with
  | none => some (none, s)
  | some _ =>
    match update_position_pnl cfg symbol exit_price s with
    | none => none
    | some s1 =>
      match alistFind s1.positions symbol with
      | none => some (none, s1)
      | some position =>
        let realized_pnl := position.unrealized_pnl
        let trade : Trade :=
          { symbol := symbol
            direction := position.direction
            size := position.size
            entry_price := position.entry_price
            exit_price := exit_price
            entry_time := position.entry_time
            exit_time := now
            realized_pnl := realized_pnl
            max_favorable := position.max_favorable
            max_adverse := position.max_adverse
            exit_reason := reason }
        some (some trade,
          { s1 with
            current_capital := s1.current_capital + realized_pnl
            trade_history := s1.trade_history ++ [trade]
            positions := alistErase s1.positions symbol })

/-- The summary dict of `RiskManager.get_portfolio_summary`
(src/trading_core/risk_manager.py lines 281-296), restricted to the
computed fields (the config echoes are omitted). -/
structure PortfolioSummary where
  initial_capital : ℚ
  current_capital : ℚ
  unrealized_pnl : ℚ
  total_equity : ℚ
  current_drawdown : ℚ
  positions_count : ℕ
  trades_completed : ℕ
  deriving DecidableEq, Repr

/-- Embeds `RiskManager.get_portfolio_summary`. -/
def get_portfolio_summary (s : RMState) : PortfolioSummary :=
  let total_unrealized := (s.positions.map fun p => p.2.unrealized_pnl).sum
  { initial_capital := s.initial_capital
    current_capital := s.current_capital
    unrealized_pnl := total_unrealized
    total_equity := s.current_capital + total_unrealized
    current_drawdown := s.initial_capital - s.current_capital
    positions_count := s.positions.length
    trades_completed := s.trade_history.length }

/-- A Python float that is either finite or the value `float('inf')`:
the codomain of the source's `profit_factor`. -/
inductive PyFloat where
  | finite (q : ℚ)
  | inf
  deriving DecidableEq, Repr

/-- The metrics dict of `RiskManager.get_performance_metrics`
(src/trading_core/risk_manager.py lines 298-319). -/
structure PerformanceMetrics where
  total_trades : ℕ
  total_return : ℚ
  win_rate : ℚ
  average_win : ℚ
  average_loss : ℚ
  profit_factor : PyFloat
  return_percentage : ℚ
  deriving DecidableEq, Repr

/-- Embeds `RiskManager.get_performance_metrics`: the empty trade log
returns `{}` (`none`); wins are trades with strictly positive realized
P&L, losses strictly negative; the average win/loss defaults to 0 when
no such trade exists; `profit_factor` is `|avg_win/avg_loss|` unless
`avg_loss == 0`, in which case the source produces the raw
`float('inf')`. -/
def get_performance_metrics (s : RMState) : Option PerformanceMetrics :=
  match s.trade_history with
  | [] => none
  | _ :: _ =>
    let pnls := s.trade_history.map Trade.realized_pnl
    let total_return := pnls.sum
    let wins := pnls.filter fun p => 0 < p
    let losses := pnls.filter fun p => p < 0
    let win_rate := (wins.length : ℚ) / (pnls.length : ℚ)
    let avg_win := if wins.isEmpty then 0 else listMean wins
    let avg_loss := if losses.isEmpty then 0 else listMean losses
    let profit_factor :=
      if avg_loss ≠ 0 then PyFloat.finite |avg_win / avg_loss| else PyFloat.inf
    some
      { total_trades := s.trade_history.length
        total_return := total_return
        win_rate := win_rate
        average_win := avg_win
        average_loss := avg_loss
        profit_factor := profit_factor
        return_percentage := total_return / s.initial_capital * 100 }

/-- One call against a `RiskManager` instance: the three mutating
operations a client may issue. -/
inductive RMOp where
  | add (symbol : String) (position_size : ℤ) (entry_price stop_loss : ℚ)
      (take_profit : Option ℚ) (direction : String) (now : ℕ)
  | update (symbol : String) (current_price : ℚ)
  | close (symbol : String) (exit_price : ℚ) (reason : String) (now : ℕ)
  deriving DecidableEq, Repr

/-- State effect of one operation (`none` when the Python call would
raise). -/
def applyOp (cfg : TradingCfg) (s : RMState) : RMOp → Option RMState
  | .add symbol size entry stop tp dir now =>
      some (add_position cfg symbol size entry stop tp dir now s).2
  | .update symbol price => update_position_pnl cfg symbol price s
  | .close symbol exit_price reason now =>
      (close_position cfg symbol exit_price reason now s).map Prod.snd

/-- Runs a call sequence left to right. -/
def runOps (cfg : TradingCfg) (ops : List RMOp) (s : RMState) :
    Option RMState :=
  ops.foldlM (applyOp cfg) s

/-- The capital-accounting invariant of the spec: current capital is
the initial capital plus the realized P&L accumulated in the trade
log. -/
def capitalInvariant (c : ℚ) (s : RMState) : Prop :=
  s.initial_capital = c ∧
  s.current_capital = c + (s.trade_history.map Trade.realized_pnl).sum

/-! ## Backtesting engine (src/trading_core/backtesting_engine.py) -/

/-- The per-timestamp equity record appended by `_simulate_trading`
(src/trading_core/backtesting_engine.py lines 158-165); the
`timestamp` key, which just echoes the loop variable, is not
modelled. -/
structure EquityRecord where
  equity : ℚ
  cash : ℚ
  unrealized_pnl : ℚ
  positions_count : ℕ
  deriving DecidableEq, Repr

/-- A signal dict as consumed by the backtest loop: the `symbol` and
`direction` keys it reads. -/
structure BtSignal where
  symbol : String
  direction : String
  deriving DecidableEq, Repr

/-- The loop body of `_simulate_trading` lines 116-128 for one open
symbol: if the instrument has data at this timestamp, mark the position
to market at its latest close, then close on stop loss, else on take
profit (the `elif` makes the stop check win a same-bar conflict).  The
appended trade comes from `close_position`; the `(none, _)` inner case
(the source would append its `{}` result) is unreachable because a true
stop/target check implies the symbol is open. -/
def processSymbol (cfg : TradingCfg)
    (current_data : List (String × List Bar)) (now : ℕ)
    (acc : RMState × List Trade) (symbol : String) :
    Option (RMState × List Trade) :=
  let (s, trade_log) := acc
  match alistFind current_data symbol with
  | none => some (s, trade_log)
  | some window =>
    let current_price := (window.getLastD default).close
    match update_position_pnl cfg symbol current_price s with
    | none => none
    | some s1 =>
      if check_stop_loss s1 symbol current_price then
        match close_position cfg symbol current_price "STOP_LOSS" now s1 with
        | none => none
        | some (some trade, s2) => some (s2, trade_log ++ [trade])
        | some (none, s2) => some (s2, trade_log)
      else if check_take_profit s1 symbol current_price then
        match close_position cfg symbol current_price "TAKE_PROFIT" now s1 with
        | none => none
        | some (some trade, s2) => some (s2, trade_log ++ [trade])
        | some (none, s2) => some (s2, trade_log)
      else some (s1, trade_log)

/-- The loop body of `_simulate_trading` lines 134-155 for one signal:
skip symbols without data at this timestamp, compute entry/stop/target
through the strategy, size the position on current capital, and attempt
`add_position` (its boolean result only drives logging). -/
def processSignal (cfg : TradingCfg)
    (calculate_entry_exit : String → List Bar → BtSignal → ℚ × ℚ × Option ℚ)
    (current_data : List (String × List Bar)) (now : ℕ)
    (s : RMState) (signal : BtSignal) : RMState :=
  match alistFind current_data signal.symbol with
  | none => s
  | some window =>
    let (entry_price, stop_loss, take_profit) :=
      calculate_entry_exit signal.symbol window signal
    let position_size :=
      calculate_position_size cfg signal.symbol entry_price stop_loss
        s.current_capital
    (add_position cfg signal.symbol position_size entry_price stop_loss
      take_profit signal.direction now s).2

/-- Position-management phase of one timestamp iteration (lines
116-128): fold the per-symbol body over the snapshot
`list(risk_manager.positions.keys())` taken before any mutation. -/
def closePhase (cfg : TradingCfg)
    (current_data : List (String × List Bar)) (now : ℕ) (s : RMState) :
    Option (RMState × List Trade) :=
  (s.positions.map Prod.fst).foldlM (processSymbol cfg current_data now)
    (s, ([] : List Trade))

/-- Signal-entry phase of one timestamp iteration (lines 134-155). -/
def entryPhase (cfg : TradingCfg)
    (calculate_entry_exit : String → List Bar → BtSignal → ℚ × ℚ × Option ℚ)
    (current_data : List (String × List Bar)) (now : ℕ)
    (signals : List BtSignal) (s : RMState) : RMState :=
  signals.foldl (processSignal cfg calculate_entry_exit current_data now) s

/-- Embeds one iteration of the `_simulate_trading` timestamp loop
(src/trading_core/backtesting_engine.py lines 102-165), written as the
source writes it — position updates and stop/target closes first, then
`strategy.execute_strategy` and the entry attempts, then the equity
snapshot.  `current_data` is the per-symbol expanding window slice at
this timestamp; `execute_strategy` and `calculate_entry_exit` stand for
the strategy object's methods (they read only market data, never the
risk manager). -/
def simStep (cfg : TradingCfg)
    (execute_strategy : List (String × List Bar) → List BtSignal)
    (calculate_entry_exit : String → List Bar → BtSignal → ℚ × ℚ × Option ℚ)
    (current_data : List (String × List Bar)) (now : ℕ) (s : RMState) :
    Option (RMState × List Trade × EquityRecord) :=
  match (s.positions.map Prod.fst).foldlM
      (processSymbol cfg current_data now) (s, ([] : List Trade)) with
  | none => none
  | some (s1, trade_log) =>
    let signals := execute_strategy current_data
    let s2 := signals.foldl
      (processSignal cfg calculate_entry_exit current_data now) s1
    let summary := get_portfolio_summary s2
    some (s2, trade_log,
      { equity := summary.total_equity
        cash := summary.current_capital
        unrealized_pnl := summary.unrealized_pnl
        positions_count := summary.positions_count })

/-- The daily-return series of `_calculate_performance_metrics` line
187: `equity.pct_change()` with the leading NaN dropped (pandas mean /
std skip it).  A zero previous equity would give an IEEE special value
in the source; equities are capital-based and positive in every run. -/
def daily_returns (equity : List ℚ) : List ℚ :=
  equity.zipWith (fun prev cur => (cur - prev) / prev) equity.tail

/-- Unbiased sample variance (square of pandas `Series.std()` with
`ddof=1`); meaningful for lists of length at least 2, the only place
it is consumed. -/
def sampleVar (xs : List ℚ) : ℚ :=
  let m := listMean xs
  (xs.map fun x => (x - m) ^ 2).sum / ((xs.length : ℚ) - 1)

/-- A Python float result that may be an IEEE special value: the
codomain of the Sharpe-ratio expression. -/
inductive SharpeVal where
  | nan
  | inf
  | neginf
  | finite (meanRet variance : ℚ)
  deriving DecidableEq, Repr

/-- Embeds the Sharpe computation of `_calculate_performance_metrics`
(src/trading_core/backtesting_engine.py line 191):
`mean(dr)*252 / (std(dr)*sqrt(252))` in float arithmetic.  With fewer
than two returns the sample std is NaN and so is the quotient.  The
denominator `std·√252` is non-negative and zero exactly when the sample
variance is zero, so by IEEE division the result is NaN when the mean
is also zero and ±∞ otherwise.  A positive variance gives the ordinary
finite value, determined by the recorded mean and variance as
`mean·252 / √(variance·252)`; the constructor carries that data since
the value itself is irrational. -/
def sharpe_of_equity (equity : List ℚ) : SharpeVal :=
  let dr := daily_returns equity
  if dr.length ≤ 1 then SharpeVal.nan
  else
    let m := listMean dr
    let v := sampleVar dr
    if v = 0 then
      if m = 0 then SharpeVal.nan
      else if 0 < m then SharpeVal.inf
      else SharpeVal.neginf
    else SharpeVal.finite m v

/-! ## Concrete fixtures used by witnesses and counterexamples -/

/-- A sample open long EURUSD position used by concrete witnesses. -/
def eurPosition : Position :=
  { symbol := "EURUSD", size := 1000, direction := "LONG"
    entry_price := 108/100, stop_loss := 107/100
    take_profit := some (110/100), entry_time := 0
    unrealized_pnl := 0, max_favorable := 0, max_adverse := 0 }

/-- A risk-manager state holding exactly the one open EURUSD position. -/
def oneOpenState : RMState :=
  { initial_capital := 100000, current_capital := 100000
    max_drawdown_reached := 0, daily_pnl := 0
    positions := [("EURUSD", eurPosition)], trade_history := [] }

/-- Call sequence for the C2 witness: open EURUSD, then close it at a
profit. -/
def c2SampleOps : List RMOp :=
  [RMOp.add "EURUSD" 1000 (108/100) (107/100) none "LONG" 0,
   RMOp.close "EURUSD" (1085/1000) "MANUAL" 1]

/-- The trade record produced by `c2SampleOps`: 50 pips on 0.01 lot
yields a realized P&L of 5. -/
def c2SampleTrade : Trade :=
  { symbol := "EURUSD", direction := "LONG", size := 1000
    entry_price := 108/100, exit_price := 1085/1000
    entry_time := 0, exit_time := 1, realized_pnl := 5
    max_favorable := 5, max_adverse := 0, exit_reason := "MANUAL" }

/-- The final state reached by `c2SampleOps` from a fresh manager. -/
def c2SampleFinal : RMState :=
  { initial_capital := 100000, current_capital := 100005
    max_drawdown_reached := 0, daily_pnl := 0
    positions := [], trade_history := [c2SampleTrade] }

/-- The three phase bar lists of an AMD-cycle result (empty when the
cycle itself is empty), used to state concrete counterexamples. -/
def amdPhaseBars (r : Option AMDCycle) : List Bar × List Bar × List Bar :=
  match r with
  | none => ([], [], [])
  | some c => (c.accumulation.data, c.manipulation.data, c.distribution.data)

/-- A full trading day of hourly bars (date 0, times 00:00 .. 23:00). -/
def fullDayBars : List Bar :=
  (List.range 24).map fun h =>
    { tsDate := 0, tsTod := 3600 * h, open_ := 1, high := 1, low := 1,
      close := 1, volume := 0 }

/-- The 05:00 bar of `fullDayBars` — exactly on the asian/london session
boundary. -/
def bar0500 : Bar :=
  { tsDate := 0, tsTod := 18000, open_ := 1, high := 1, low := 1,
    close := 1, volume := 0 }

/-- The 01:00 bar of `fullDayBars` — inside the asian window only. -/
def bar0100 : Bar :=
  { tsDate := 0, tsTod := 3600, open_ := 1, high := 1, low := 1,
    close := 1, volume := 0 }

/-- A 50-bar window, below the analysis gate. -/
def c4Bars50 : List Bar := List.replicate 50 default

/-- A 100-bar window, at the analysis gate. -/
def c4Bars100 : List Bar := List.replicate 100 default

/-- A concrete evaluation date for the analysis snapshot. -/
def c4Date : Date := ⟨2024, 5, 15⟩

/-- A concrete analysis snapshot for the confluence witness:
manipulation phase, no nearby Goldbach level, discount zone, no HIPPO
pattern. -/
def c3Analysis : MarketAnalysis :=
  { timestamp := (0, 0)
    current_price := 1
    po3_analysis :=
      ⟨81, calculate_dealing_range 1 81 "stocks", ⟨"discount", 1/10, 7/10⟩⟩
    goldbach_analysis :=
      ⟨[], none, calculate_institutional_levels (calculate_dealing_range 1 81 "stocks")⟩
    amd_analysis := ⟨none, "manipulation", none⟩
    hippo_analysis := ⟨none, [], []⟩ }

/-- Open EURUSD position for the C7 witness, with the stop above the
target so that a single price triggers both exits. -/
def c7Position : Position :=
  { symbol := "EURUSD", size := 1000, direction := "LONG"
    entry_price := 110/100, stop_loss := 108/100
    take_profit := some (105/100), entry_time := 0
    unrealized_pnl := 0, max_favorable := 0, max_adverse := 0 }

/-- State holding only `c7Position`. -/
def c7State : RMState :=
  { initial_capital := 100000, current_capital := 100000
    max_drawdown_reached := 0, daily_pnl := 0
    positions := [("EURUSD", c7Position)], trade_history := [] }

/-- One-bar window whose close 1.07 is below the stop 1.08 and above
the target 1.05. -/
def c7Window : List Bar :=
  [{ tsDate := 0, tsTod := 0, open_ := 107/100, high := 107/100,
     low := 107/100, close := 107/100, volume := 0 }]

/-- Market data for the C7 witness. -/
def c7Data : List (String × List Bar) := [("EURUSD", c7Window)]

/-- The stop-loss trade produced at the C7 witness input. -/
def c7Trade : Trade :=
  { symbol := "EURUSD", direction := "LONG", size := 1000
    entry_price := 110/100, exit_price := 107/100
    entry_time := 0, exit_time := 9, realized_pnl := -30
    max_favorable := 0, max_adverse := -30, exit_reason := "STOP_LOSS" }

/-- The state after the C7 witness close. -/
def c7Final : RMState :=
  { initial_capital := 100000, current_capital := 99970
    max_drawdown_reached := 0, daily_pnl := 0
    positions := [], trade_history := [c7Trade] }

/-! ## Helper lemmas -/

theorem alistFind_insert_self {α : Type} (l : List (String × α)) (k : String)
    (v : α) : alistFind (alistInsert l k v) k = some v := by
  induction l with
  | nil => simp [alistInsert, alistFind]
  | cons hd tl ih =>
    obtain ⟨k2, v2⟩ := hd
    by_cases hk : k2 = k
    · simp [alistInsert, alistFind, hk]
    · simp [alistInsert, alistFind, hk, ih]

end Strat

open Strat

theorem update_position_pnl_frame (cfg : TradingCfg) (symbol : String)
    (price : ℚ) (s s1 : RMState)
    (h : update_position_pnl cfg symbol price s = some s1) :
    s1.initial_capital = s.initial_capital ∧
    s1.current_capital = s.current_capital ∧
    s1.trade_history = s.trade_history := by
  cases hf : alistFind s.positions symbol with
  | none =>
    simp only [update_position_pnl, hf] at h
    obtain rfl := Option.some.inj h
    exact ⟨rfl, rfl, rfl⟩
  | some position =>
    simp only [update_position_pnl, hf] at h
    split at h
    · exact absurd h (by simp)
    · obtain rfl := Option.some.inj h
      exact ⟨rfl, rfl, rfl⟩

theorem applyOp_capitalInvariant (cfg : TradingCfg) (c : ℚ)
    (s s2 : RMState) (op : RMOp) (hinv : capitalInvariant c s)
    (h : applyOp cfg s op = some s2) : capitalInvariant c s2 := by
  obtain ⟨hinit, hcap⟩ := hinv
  cases op with
  | add symbol size entry stop tp dir now =>
    simp only [applyOp] at h
    obtain rfl := Option.some.inj h
    simp only [add_position]
    split_ifs with hcheck
    · exact ⟨hinit, hcap⟩
    · exact ⟨hinit, hcap⟩
  | update symbol price =>
    simp only [applyOp] at h
    obtain ⟨h1, h2, h3⟩ := update_position_pnl_frame cfg symbol price s s2 h
    exact ⟨h1.trans hinit, by rw [h2, h3]; exact hcap⟩
  | close symbol exit_price reason now =>
    simp only [applyOp] at h
    cases hc : close_position cfg symbol exit_price reason now s with
    | none => rw [hc] at h; exact absurd h (by simp)
    | some p =>
      rw [hc] at h
      obtain rfl : p.2 = s2 := by simpa using h
      cases hf : alistFind s.positions symbol with
      | none =>
        simp only [close_position, hf] at hc
        obtain rfl := Option.some.inj hc
        exact ⟨hinit, hcap⟩
      | some position =>
        simp only [close_position, hf] at hc
        cases hu : update_position_pnl cfg symbol exit_price s with
        | none => rw [hu] at hc; exact absurd hc (by simp)
        | some s1 =>
          simp only [hu] at hc
          obtain ⟨h1, h2, h3⟩ :=
            update_position_pnl_frame cfg symbol exit_price s s1 hu
          cases hf1 : alistFind s1.positions symbol with
          | none =>
            simp only [hf1] at hc
            obtain rfl := Option.some.inj hc
            exact ⟨h1.trans hinit, by rw [h2, h3]; exact hcap⟩
          | some position1 =>
            simp only [hf1] at hc
            obtain rfl := Option.some.inj hc
            refine ⟨h1.trans hinit, ?_⟩
            simp only [h2, h3, List.map_append, List.sum_append,
              List.map_cons, List.map_nil, List.sum_cons, List.sum_nil]
            rw [hcap]
            ring

theorem runOps_capitalInvariant (cfg : TradingCfg) (c : ℚ)
    (ops : List RMOp) : ∀ s s2 : RMState, capitalInvariant c s →
    runOps cfg ops s = some s2 → capitalInvariant c s2 := by
  induction ops with
  | nil =>
    intro s s2 hinv h
    simp only [runOps, List.foldlM_nil] at h
    obtain rfl := Option.some.inj h
    exact hinv
  | cons op rest ih =>
    intro s s2 hinv h
    simp only [runOps, List.foldlM_cons] at h
    cases ha : applyOp cfg s op with
    | none => rw [ha] at h; exact absurd h (by simp)
    | some s1 =>
      rw [ha] at h
      exact ih s1 s2 (applyOp_capitalInvariant cfg c s s1 op hinv ha) h

/-! ## Claim C2 -/

/-- C2: the only operation that changes `current_capital` is
`close_position`, and it changes it by exactly the realized P&L it
logs; hence after any sequence of `add_position`, `update_position_pnl`
and `close_position` calls on a fresh manager, the current capital
equals the initial capital plus the sum of `realized_pnl` over the
whole trade history. -/
theorem c2_capital_is_initial_plus_realized_sum (cfg : TradingCfg)
    (c : ℚ) (ops : List RMOp) (s2 : RMState)
    (h : runOps cfg ops (mkRiskManager c) = some s2) :
    s2.current_capital = c + (s2.trade_history.map Trade.realized_pnl).sum :=
  (runOps_capitalInvariant cfg c ops (mkRiskManager c) s2
    ⟨rfl, by simp [mkRiskManager]⟩ h).2

/-- Witness for C2 at a concrete input: one open followed by one close
lands at capital 100005 = 100000 + 5, the 5 being the single logged
realized P&L. -/
theorem c2_capital_is_initial_plus_realized_sum_witness :
    runOps default_config c2SampleOps (mkRiskManager 100000) =
      some c2SampleFinal ∧
    c2SampleFinal.current_capital =
      100000 + (c2SampleFinal.trade_history.map Trade.realized_pnl).sum := by
  have h : runOps default_config c2SampleOps (mkRiskManager 100000) =
      some c2SampleFinal := by
    simp [runOps, List.foldlM, applyOp, add_position, check_risk_limits,
      check_correlation_limits, alistFind, alistInsert, alistErase,
      default_config, mkRiskManager, close_position, update_position_pnl,
      c2SampleOps, c2SampleTrade, c2SampleFinal]
    norm_num
  exact ⟨h, c2_capital_is_initial_plus_realized_sum default_config 100000
    c2SampleOps c2SampleFinal h⟩

/-! ## Claim C1 -/

/-- C1: the claimed invariant
`range_low ≤ discount_threshold ≤ equilibrium ≤ premium_threshold ≤
range_high` fails in the forex branch of `calculate_dealing_range`: at
the failing input `current_price = 1.08052`, `po3_number = 27`,
`asset_type = 'forex'`, the bucket is `[1.0800, 1.0827]` but both
thresholds are divided by 10^4 a second time after `range_low` (already
scaled) had the unscaled offsets `po3·0.67` / `po3·0.33` added, so they
land near 0.001, far below `range_low` — while the non-forex branch
satisfies the claimed chain.  This theorem evaluates the embedded code
at the failing input. -/
theorem c1_forex_thresholds_escape_dealing_range :
    (calculate_dealing_range (108052/100000) 27 "forex").range_low = 27/25 ∧
    (calculate_dealing_range (108052/100000) 27 "forex").range_high = 10827/10000 ∧
    (calculate_dealing_range (108052/100000) 27 "forex").discount_threshold = 999/1000000 ∧
    (calculate_dealing_range (108052/100000) 27 "forex").premium_threshold = 1917/1000000 ∧
    (calculate_dealing_range (108052/100000) 27 "forex").discount_threshold <
      (calculate_dealing_range (108052/100000) 27 "forex").range_low := by
  refine ⟨?_, ?_, ?_, ?_, ?_⟩ <;>
    · simp only [calculate_dealing_range, forexBasePrice]
      norm_num
      rw [show Int.fdiv 10805 27 = 400 from by decide]
      norm_num

/-- For contrast with the forex slip: in the non-forex branch the
dealing-range fields do satisfy the full ordering chain for every
positive PO3 number, which is what marks the forex rescaling as the
bug. -/
theorem nonforex_dealing_range_ordered (current_price : ℚ)
    (po3_number : ℤ) (hpo3 : 0 < po3_number) :
    (calculate_dealing_range current_price po3_number "stocks").range_low ≤
      (calculate_dealing_range current_price po3_number "stocks").discount_threshold ∧
    (calculate_dealing_range current_price po3_number "stocks").discount_threshold ≤
      (calculate_dealing_range current_price po3_number "stocks").equilibrium ∧
    (calculate_dealing_range current_price po3_number "stocks").equilibrium ≤
      (calculate_dealing_range current_price po3_number "stocks").premium_threshold ∧
    (calculate_dealing_range current_price po3_number "stocks").premium_threshold ≤
      (calculate_dealing_range current_price po3_number "stocks").range_high := by
  have h : (0 : ℚ) < (po3_number : ℚ) := by exact_mod_cast hpo3
  have hne : ¬ ("stocks" : String) = "forex" := by decide
  simp only [calculate_dealing_range, if_neg hne]
  push_cast
  refine ⟨by linarith, by linarith, by linarith, by linarith⟩

/-! ## Claim C10 -/

/-- C10: `close_position` on an instrument with no open position
returns the empty dict and leaves the whole state — capital, position
table and trade history — unchanged. -/
theorem c10_close_position_unknown_symbol_noop (cfg : TradingCfg)
    (symbol : String) (exit_price : ℚ) (reason : String) (now : ℕ)
    (s : RMState) (h : alistFind s.positions symbol = none) :
    close_position cfg symbol exit_price reason now s = some (none, s) := by
  simp [close_position, h]

/-- Witness for C10 at a concrete input: a fresh risk manager holds no
position for EURUSD, and closing it is a no-op returning `{}`. -/
theorem c10_close_position_unknown_symbol_noop_witness :
    alistFind (mkRiskManager 100000).positions "EURUSD" = none ∧
    close_position default_config "EURUSD" (108/100) "MANUAL" 3
      (mkRiskManager 100000) = some (none, mkRiskManager 100000) :=
  ⟨rfl, c10_close_position_unknown_symbol_noop default_config "EURUSD"
    (108/100) "MANUAL" 3 (mkRiskManager 100000) rfl⟩

/-! ## Claim C6 -/

/-- C6: `add_position` rejects — returning `False` and leaving the
state untouched — whenever the open-position count is at the
`MAX_POSITIONS` cap, the instrument already has an open position, the
drawdown `initial − current` is at or beyond `MAX_DRAWDOWN_USD`, the
per-class cap of 2 concurrent futures (resp. forex) positions is
already filled for the instrument's class, or the proposed size is
non-positive. -/
theorem c6_add_position_rejects_on_any_limit (cfg : TradingCfg)
    (s : RMState) (symbol : String) (position_size : ℤ)
    (entry_price stop_loss : ℚ) (take_profit : Option ℚ)
    (direction : String) (now : ℕ)
    (h : cfg.MAX_POSITIONS ≤ s.positions.length ∨
         (alistFind s.positions symbol).isSome ∨
         cfg.MAX_DRAWDOWN_USD ≤ s.initial_capital - s.current_capital ∨
         (symbol ∈ cfg.FUTURES_SYMBOLS ∧
          2 ≤ (s.positions.filter fun p => p.1 ∈ cfg.FUTURES_SYMBOLS).length) ∨
         (symbol ∈ cfg.FOREX_SYMBOLS ∧
          2 ≤ (s.positions.filter fun p => p.1 ∈ cfg.FOREX_SYMBOLS).length) ∨
         position_size ≤ 0) :
    add_position cfg symbol position_size entry_price stop_loss take_profit
      direction now s = (false, s) := by
  have hcorr : ((symbol ∈ cfg.FUTURES_SYMBOLS ∧
      2 ≤ (s.positions.filter fun p => p.1 ∈ cfg.FUTURES_SYMBOLS).length) ∨
      (symbol ∈ cfg.FOREX_SYMBOLS ∧
      2 ≤ (s.positions.filter fun p => p.1 ∈ cfg.FOREX_SYMBOLS).length)) →
      check_correlation_limits cfg s symbol = true := by
    intro hcc
    simp only [check_correlation_limits]
    split_ifs with hf hx
    · rfl
    · rfl
    · rcases hcc with hcc | hcc
      · exact absurd hcc hf
      · exact absurd hcc hx
  have hc : check_risk_limits cfg s symbol position_size entry_price = false := by
    simp only [check_risk_limits]
    split_ifs with h1 h2 h3 h4 h5 <;> try rfl
    exfalso
    rcases h with h | h | h | h | h | h
    · exact h1 h
    · exact h2 h
    · exact h3 h
    · exact h4 (hcorr (Or.inl h))
    · exact h4 (hcorr (Or.inr h))
    · exact h5 h
  simp [add_position, hc]

/-- Witness for C6 at a concrete input: with EURUSD already open, a
second `add_position` for EURUSD fails and changes nothing. -/
theorem c6_add_position_rejects_on_any_limit_witness :
    (alistFind oneOpenState.positions "EURUSD").isSome = true ∧
    add_position default_config "EURUSD" 500 (109/100) (1081/1000) none
      "LONG" 7 oneOpenState = (false, oneOpenState) :=
  ⟨rfl, c6_add_position_rejects_on_any_limit default_config oneOpenState
    "EURUSD" 500 (109/100) (1081/1000) none "LONG" 7
    (Or.inr (Or.inl rfl))⟩

/-! ## Claim C9 -/

/-- C9 counterexample: on a non-empty trade log whose only trade has
positive realized P&L (so the average loss is 0), the code's
`profit_factor` is the raw `float('inf')` — not an explicit flagged
state — refuting the claim at this input. -/
theorem c9_profit_factor_is_raw_infinity_counterexample :
    (get_performance_metrics c2SampleFinal).map PerformanceMetrics.profit_factor
      = some PyFloat.inf := by
  simp [get_performance_metrics, c2SampleFinal, c2SampleTrade, listMean]

/-- C9 amended: for every non-empty trade log with no negative realized
P&L, the metrics are produced with `average_loss = 0` and
`profit_factor = float('inf')` — a raw IEEE infinity, not a flagged
state. -/
theorem c9_profit_factor_infinite_when_no_losses (s : RMState)
    (h1 : s.trade_history ≠ [])
    (h2 : ∀ t ∈ s.trade_history, 0 ≤ t.realized_pnl) :
    (get_performance_metrics s).map PerformanceMetrics.average_loss = some 0 ∧
    (get_performance_metrics s).map PerformanceMetrics.profit_factor
      = some PyFloat.inf := by
  cases hh : s.trade_history with
  | nil => exact absurd hh h1
  | cons t ts =>
    have hl : ((t :: ts).map Trade.realized_pnl).filter (fun p => p < 0) = [] := by
      rw [List.filter_eq_nil]
      intro a ha
      simp only [List.mem_map] at ha
      obtain ⟨tr, htr, rfl⟩ := ha
      have := h2 tr (hh ▸ htr)
      simp only [decide_eq_true_eq, not_lt]
      exact this
    constructor <;>
      · simp only [get_performance_metrics, hh, Option.map_some']
        rw [hl]
        simp

/-- Witness for the C9 amended claim at the concrete one-win log. -/
theorem c9_profit_factor_infinite_when_no_losses_witness :
    c2SampleFinal.trade_history ≠ [] ∧
    (get_performance_metrics c2SampleFinal).map PerformanceMetrics.average_loss
      = some 0 ∧
    (get_performance_metrics c2SampleFinal).map PerformanceMetrics.profit_factor
      = some PyFloat.inf := by
  have hmain := c9_profit_factor_infinite_when_no_losses
    c2SampleFinal (by simp [c2SampleFinal])
    (by intro t ht
        simp only [c2SampleFinal, c2SampleTrade, List.mem_singleton] at ht
        subst ht
        norm_num)
  exact ⟨by simp [c2SampleFinal], hmain.1, hmain.2⟩

/-! ## Claim C5 -/

/-- C5 counterexample: a constant equity history has a zero-variance
daily-return series, yet the Sharpe expression evaluates to NaN (0/0 in
float arithmetic), not to 0 — refuting the claim at this input. -/
theorem c5_sharpe_is_nan_counterexample :
    sharpe_of_equity [100000, 100000, 100000] = SharpeVal.nan := by
  simp [sharpe_of_equity, daily_returns, sampleVar, listMean]

/-- C5 amended: whenever the daily-return series has zero sample
variance (with at least two returns), the unguarded division of line
191 yields an IEEE special value — NaN when the mean return is zero and
±∞ otherwise — never the value 0. -/
theorem c5_sharpe_special_value_on_zero_variance (equity : List ℚ)
    (h1 : 2 ≤ (daily_returns equity).length)
    (h2 : sampleVar (daily_returns equity) = 0) :
    (sharpe_of_equity equity = SharpeVal.nan ∨
     sharpe_of_equity equity = SharpeVal.inf ∨
     sharpe_of_equity equity = SharpeVal.neginf) ∧
    (listMean (daily_returns equity) = 0 →
      sharpe_of_equity equity = SharpeVal.nan) := by
  simp only [sharpe_of_equity]
  rw [if_neg (by omega), if_pos h2]
  constructor
  · split_ifs <;> simp
  · intro hm
    rw [if_pos hm]

/-- Witness for the C5 amended claim at the constant equity curve. -/
theorem c5_sharpe_special_value_on_zero_variance_witness :
    2 ≤ (daily_returns [100000, 100000, 100000]).length ∧
    sampleVar (daily_returns [100000, 100000, 100000]) = 0 ∧
    ((sharpe_of_equity [100000, 100000, 100000] = SharpeVal.nan ∨
      sharpe_of_equity [100000, 100000, 100000] = SharpeVal.inf ∨
      sharpe_of_equity [100000, 100000, 100000] = SharpeVal.neginf) ∧
     (listMean (daily_returns [100000, 100000, 100000]) = 0 →
       sharpe_of_equity [100000, 100000, 100000] = SharpeVal.nan)) := by
  have h1 : 2 ≤ (daily_returns [(100000 : ℚ), 100000, 100000]).length := by
    simp [daily_returns]
  have h2 : sampleVar (daily_returns [(100000 : ℚ), 100000, 100000]) = 0 := by
    simp [daily_returns, sampleVar, listMean]
  exact ⟨h1, h2, c5_sharpe_special_value_on_zero_variance _ h1 h2⟩

/-! ## Claim C4 -/

/-- C4 counterexample: a 50-bar window — which the claim says must
produce a non-empty snapshot — returns the empty snapshot, because the
code's gate is `len(data) < 100`, not 50. -/
theorem c4_fifty_bars_gives_empty_snapshot_counterexample :
    50 ≤ c4Bars50.length ∧
    analyze_market "forex" "EURUSD=X" c4Date 36000 c4Bars50 = none := by
  constructor
  · simp [c4Bars50]
  · simp [analyze_market, c4Bars50]

/-- C4 amended: the analysis gate is 100 bars (not 50): any window with
fewer than 100 bars yields the empty snapshot without raising, and any
window with at least 100 bars yields a (non-empty) snapshot — the
embedding's total `some`-branch mirrors the exception-free construction
of the source. -/
theorem c4_analysis_gate_is_100_bars (asset_type indexName : String)
    (nowDate : Date) (now_tod : ℕ) (data : List Bar) :
    (data.length < 100 →
      analyze_market asset_type indexName nowDate now_tod data = none) ∧
    (100 ≤ data.length →
      (analyze_market asset_type indexName nowDate now_tod data).isSome = true) := by
  constructor <;> intro h
  · simp [analyze_market, h]
  · simp [analyze_market, Nat.not_lt.mpr h]

/-- Witness for the C4 amended claim at the 100-bar window. -/
theorem c4_analysis_gate_is_100_bars_witness :
    100 ≤ c4Bars100.length ∧
    (analyze_market "forex" "EURUSD=X" c4Date 36000 c4Bars100).isSome = true :=
  ⟨by simp [c4Bars100],
   (c4_analysis_gate_is_100_bars "forex" "EURUSD=X" c4Date 36000 c4Bars100).2
     (by simp [c4Bars100])⟩

/-! ## Claim C3 -/

theorem clip_helper (x : ℚ) (hx : 0 ≤ x) :
    min x 1 = max 0 (min x 1) ∧ 0 ≤ min x 1 ∧ min x 1 ≤ 1 :=
  ⟨(max_eq_right (le_min hx zero_le_one)).symm,
   le_min hx zero_le_one, min_le_right x 1⟩

/-- C3: for every candidate signal (raw strength non-negative, as every
generated signal's is) and every analysis snapshot, the confluence
score equals the spec's formula `clip(raw + 0.20·[manipulation] +
0.15·[level within 0.2% of its price] + 0.10·[discount/premium zone] +
0.10·[hippo pattern], 0, 1)`, and in particular always lies in [0,1]. -/
theorem c3_confluence_matches_spec_and_is_bounded
    (signal_strength : Option ℚ) (analysis : MarketAnalysis)
    (h : 0 ≤ signal_strength.getD (1/2)) :
    calculate_confluence signal_strength analysis
      = confluence_spec signal_strength analysis ∧
    0 ≤ calculate_confluence signal_strength analysis ∧
    calculate_confluence signal_strength analysis ≤ 1 := by
  simp only [calculate_confluence, confluence_spec]
  cases hnl : analysis.goldbach_analysis.nearest_level <;>
    · dsimp only
      split_ifs <;>
        · ring_nf
          exact clip_helper _ (by linarith)

/-- Witness for C3 at a concrete signal (strength 0.7) and snapshot. -/
theorem c3_confluence_matches_spec_and_is_bounded_witness :
    0 ≤ (some (7/10 : ℚ)).getD (1/2) ∧
    (calculate_confluence (some (7/10)) c3Analysis
        = confluence_spec (some (7/10)) c3Analysis ∧
      0 ≤ calculate_confluence (some (7/10)) c3Analysis ∧
      calculate_confluence (some (7/10)) c3Analysis ≤ 1) :=
  ⟨by norm_num, c3_confluence_matches_spec_and_is_bounded (some (7/10))
    c3Analysis (by norm_num)⟩

/-! ## Claim C8 -/

/-- C8 counterexample: on a full day of hourly bars the 05:00 bar —
lying exactly on the asian/london session boundary — is returned in
BOTH the accumulation and the manipulation phase (both window filters
are boundary-inclusive), so the three phases are not pairwise
disjoint. -/
theorem c8_boundary_bar_in_two_phases_counterexample :
    bar0500 ∈ (amdPhaseBars (identify_daily_amd_cycle fullDayBars none)).1 ∧
    bar0500 ∈ (amdPhaseBars (identify_daily_amd_cycle fullDayBars none)).2.1 := by
  decide

/-- C8 amended: the three phase filters cover every bar of the selected
day (their union is the day's bars), and a bar whose time of day is not
exactly one of the session boundaries 05:00, 11:00, 20:00 lies in
exactly one phase; a boundary bar lies in two, since the windows are
inclusive at both ends. -/
theorem c8_phases_cover_day_overlap_only_at_boundaries
    (data : List Bar) (c : AMDCycle)
    (h : identify_daily_amd_cycle data none = some c) (b : Bar)
    (hb : b ∈ dayData data c.date) :
    (b ∈ c.accumulation.data ∨ b ∈ c.manipulation.data ∨
      b ∈ c.distribution.data) ∧
    (b.tsTod ≠ asianEnd ∧ b.tsTod ≠ londonEnd ∧ b.tsTod ≠ asianStart →
      (b ∈ c.accumulation.data →
        b ∉ c.manipulation.data ∧ b ∉ c.distribution.data) ∧
      (b ∈ c.manipulation.data →
        b ∉ c.accumulation.data ∧ b ∉ c.distribution.data) ∧
      (b ∈ c.distribution.data →
        b ∉ c.accumulation.data ∧ b ∉ c.manipulation.data)) := by
  simp only [identify_daily_amd_cycle] at h
  cases hgl : data.getLast? with
  | none =>
    rw [hgl] at h
    exact absurd h (by simp)
  | some lb =>
    rw [hgl] at h
    simp only [Option.map_some'] at h
    by_cases hde : (dayData data lb.tsDate).isEmpty
    · rw [if_pos hde] at h
      exact absurd h (by simp)
    · rw [if_neg hde] at h
      obtain rfl := Option.some.inj h
      simp only [mkPhaseData] at hb ⊢
      simp only [List.mem_filter, hb, true_and, decide_eq_true_eq,
        asianStart, asianEnd, londonEnd]
      omega

/-- Witness for the C8 amended claim: instantiated at the full hourly
day and its 01:00 bar, which is off-boundary and lands in the
accumulation phase only. -/
theorem c8_phases_cover_day_overlap_only_at_boundaries_witness :
    identify_daily_amd_cycle fullDayBars none =
      some ((identify_daily_amd_cycle fullDayBars none).getD default) ∧
    bar0100 ∈ dayData fullDayBars
      ((identify_daily_amd_cycle fullDayBars none).getD default).date ∧
    ((bar0100 ∈ ((identify_daily_amd_cycle fullDayBars none).getD default).accumulation.data ∨
      bar0100 ∈ ((identify_daily_amd_cycle fullDayBars none).getD default).manipulation.data ∨
      bar0100 ∈ ((identify_daily_amd_cycle fullDayBars none).getD default).distribution.data) ∧
     (bar0100.tsTod ≠ asianEnd ∧ bar0100.tsTod ≠ londonEnd ∧
        bar0100.tsTod ≠ asianStart →
      (bar0100 ∈ ((identify_daily_amd_cycle fullDayBars none).getD default).accumulation.data →
        bar0100 ∉ ((identify_daily_amd_cycle fullDayBars none).getD default).manipulation.data ∧
        bar0100 ∉ ((identify_daily_amd_cycle fullDayBars none).getD default).distribution.data) ∧
      (bar0100 ∈ ((identify_daily_amd_cycle fullDayBars none).getD default).manipulation.data →
        bar0100 ∉ ((identify_daily_amd_cycle fullDayBars none).getD default).accumulation.data ∧
        bar0100 ∉ ((identify_daily_amd_cycle fullDayBars none).getD default).distribution.data) ∧
      (bar0100 ∈ ((identify_daily_amd_cycle fullDayBars none).getD default).distribution.data →
        bar0100 ∉ ((identify_daily_amd_cycle fullDayBars none).getD default).accumulation.data ∧
        bar0100 ∉ ((identify_daily_amd_cycle fullDayBars none).getD default).manipulation.data))) := by
  have h1 : identify_daily_amd_cycle fullDayBars none =
      some ((identify_daily_amd_cycle fullDayBars none).getD default) := by decide
  have h2 : bar0100 ∈ dayData fullDayBars
      ((identify_daily_amd_cycle fullDayBars none).getD default).date := by decide
  exact ⟨h1, h2, c8_phases_cover_day_overlap_only_at_boundaries fullDayBars
    ((identify_daily_amd_cycle fullDayBars none).getD default) h1 bar0100 h2⟩

/-! ## Claim C7 -/

theorem update_position_pnl_keeps_position (cfg : TradingCfg)
    (symbol : String) (price : ℚ) (s s1 : RMState) (p : Position)
    (h : update_position_pnl cfg symbol price s = some s1)
    (hf : alistFind s.positions symbol = some p) :
    ∃ p2 : Position, alistFind s1.positions symbol = some p2 ∧
      p2.direction = p.direction ∧ p2.stop_loss = p.stop_loss ∧
      p2.take_profit = p.take_profit := by
  simp only [update_position_pnl, hf] at h
  split at h
  · exact absurd h (by simp)
  · obtain rfl := Option.some.inj h
    exact ⟨_, alistFind_insert_self _ _ _, rfl, rfl, rfl⟩

theorem close_position_emits_trade (cfg : TradingCfg) (symbol : String)
    (price : ℚ) (reason : String) (now : ℕ) (s1 : RMState) (p1 : Position)
    (r : Option Trade × RMState)
    (hf : alistFind s1.positions symbol = some p1)
    (h : close_position cfg symbol price reason now s1 = some r) :
    ∃ trade s2, r = (some trade, s2) ∧ trade.symbol = symbol ∧
      trade.exit_reason = reason := by
  simp only [close_position, hf] at h
  cases hu : update_position_pnl cfg symbol price s1 with
  | none =>
    rw [hu] at h
    exact absurd h (by simp)
  | some s3 =>
    simp only [hu] at h
    obtain ⟨p2, hf2, _, _, _⟩ :=
      update_position_pnl_keeps_position cfg symbol price s1 s3 p1 hu hf
    simp only [hf2] at h
    obtain rfl := Option.some.inj h
    exact ⟨_, _, rfl, rfl, rfl⟩

/-- C7: one backtest timestamp iteration decomposes as the
position-management phase (mark-to-market, stop/target closes over the
pre-step position snapshot) followed — strictly after — by signal
generation and entry attempts on the post-close state, followed by the
equity snapshot; and inside the per-position body the stop-loss check
runs before the take-profit check, so when one price triggers both, the
position is closed with exit reason STOP_LOSS. -/
theorem c7_closes_precede_entries_and_stop_wins
    (cfg : TradingCfg)
    (execute_strategy : List (String × List Bar) → List BtSignal)
    (calculate_entry_exit : String → List Bar → BtSignal → ℚ × ℚ × Option ℚ)
    (current_data : List (String × List Bar)) (now : ℕ) (s : RMState)
    (symbol : String) (p : Position) (window : List Bar)
    (sOut : RMState × List Trade) :
    simStep cfg execute_strategy calculate_entry_exit current_data now s =
      (match closePhase cfg current_data now s with
       | none => none
       | some (s1, trade_log) =>
         let s2 := entryPhase cfg calculate_entry_exit current_data now
           (execute_strategy current_data) s1
         let summary := get_portfolio_summary s2
         some (s2, trade_log,
           { equity := summary.total_equity, cash := summary.current_capital,
             unrealized_pnl := summary.unrealized_pnl,
             positions_count := summary.positions_count })) ∧
    (alistFind s.positions symbol = some p →
     alistFind current_data symbol = some window →
     check_stop_loss s symbol (window.getLastD default).close = true →
     check_take_profit s symbol (window.getLastD default).close = true →
     processSymbol cfg current_data now (s, []) symbol = some sOut →
     ∃ trade, sOut.2 = [trade] ∧ trade.symbol = symbol ∧
       trade.exit_reason = "STOP_LOSS") := by
  constructor
  · rfl
  · intro h1 h2 h3 h4 h5
    simp only [processSymbol, h2] at h5
    cases hu : update_position_pnl cfg symbol (window.getLastD default).close s with
    | none =>
      rw [hu] at h5
      exact absurd h5 (by simp)
    | some s1 =>
      simp only [hu] at h5
      obtain ⟨p2, hf2, hdir, hstop, htp⟩ :=
        update_position_pnl_keeps_position cfg symbol
          (window.getLastD default).close s s1 p hu h1
      have hcs1 : check_stop_loss s1 symbol (window.getLastD default).close = true := by
        simp only [check_stop_loss, hf2]
        simp only [check_stop_loss, h1] at h3
        rw [hdir, hstop]
        exact h3
      rw [if_pos hcs1] at h5
      cases hcp : close_position cfg symbol (window.getLastD default).close
          "STOP_LOSS" now s1 with
      | none =>
        rw [hcp] at h5
        exact absurd h5 (by simp)
      | some r =>
        obtain ⟨trade, s2, rfl, hts, hre⟩ :=
          close_position_emits_trade cfg symbol
            (window.getLastD default).close "STOP_LOSS" now s1 p2 r hf2 hcp
        rw [hcp] at h5
        dsimp only at h5
        obtain rfl := Option.some.inj h5
        exact ⟨trade, by simp, hts, hre⟩

/-- Witness for C7 at a concrete input: a long EURUSD position whose
stop (1.08) sits above its target (1.05), marked against a bar closing
at 1.07, triggers both checks and is closed as STOP_LOSS. -/
theorem c7_closes_precede_entries_and_stop_wins_witness :
    alistFind c7State.positions "EURUSD" = some c7Position ∧
    alistFind c7Data "EURUSD" = some c7Window ∧
    check_stop_loss c7State "EURUSD" ((c7Window.getLastD default).close) = true ∧
    check_take_profit c7State "EURUSD" ((c7Window.getLastD default).close) = true ∧
    processSymbol default_config c7Data 9 (c7State, []) "EURUSD"
      = some (c7Final, [c7Trade]) ∧
    (∃ trade, (c7Final, [c7Trade]).2 = [trade] ∧ trade.symbol = "EURUSD" ∧
      trade.exit_reason = "STOP_LOSS") := by
  have h1 : alistFind c7State.positions "EURUSD" = some c7Position := by
    simp [c7State, alistFind]
  have h2 : alistFind c7Data "EURUSD" = some c7Window := by
    simp [c7Data, alistFind]
  have h3 : check_stop_loss c7State "EURUSD" ((c7Window.getLastD default).close)
      = true := by
    simp [check_stop_loss, c7State, c7Position, c7Window, alistFind]
    norm_num
  have h4 : check_take_profit c7State "EURUSD" ((c7Window.getLastD default).close)
      = true := by
    simp [check_take_profit, c7State, c7Position, c7Window, alistFind]
    norm_num
  have h5 : processSymbol default_config c7Data 9 (c7State, []) "EURUSD"
      = some (c7Final, [c7Trade]) := by
    simp [processSymbol, c7Data, c7State, c7Position, c7Window, c7Final,
      c7Trade, alistFind, alistInsert, alistErase, update_position_pnl,
      check_stop_loss, check_take_profit, close_position, default_config]
    norm_num
  exact ⟨h1, h2, h3, h4, h5,
    (c7_closes_precede_entries_and_stop_wins default_config (fun _ => [])
      (fun _ _ _ => (0, 0, none)) c7Data 9 c7State "EURUSD" c7Position
      c7Window (c7Final, [c7Trade])).2 h1 h2 h3 h4 h5⟩
